import Mathlib

/-!
Shallow embedding of the ETL pipeline orchestrator
(main.py, src/utils/config.py, src/extractors/database_extractor.py).

Python exceptions are modelled by `PyResult`; tabular datasets by `Dataset`;
Python dicts by association lists with update-or-append insertion; the
mutable attributes of the `ETLPipeline` object together with the staging and
output directories and the persisted run summaries by `PipeState`.
External collaborators (the api/file extractors, the SQL transformer, the
validator, the database and excel loaders, directory creation and temp-file
cleanup) live outside src and are modelled as behaviour parameters: each
call site receives the outcome the collaborator would produce there.
Exception message texts are rendered without punctuation that Python would
include; no claim depends on the exact text.
-/

/-- Outcome of a Python expression or statement block: a value, or a raised
exception carrying its message. -/
inductive PyResult (α : Type) : Type where
  | ok (a : α) : PyResult α
  | exn (msg : String) : PyResult α
deriving DecidableEq, Repr

def PyResult.isOk {α : Type} : PyResult α → Bool
  | .ok _ => true
  | .exn _ => false

/-- An in-memory tabular dataset (pandas DataFrame): a column schema and a
list of rows; `len(df)` is the number of rows. -/
structure Dataset where
  cols : List String
  rows : List (List String)
deriving DecidableEq, Repr

def Dataset.len (d : Dataset) : Nat := d.rows.length

/-- Python dict assignment `m[k] = v`: rebind the key in place when
present, otherwise append a new entry (dicts preserve insertion order). -/
def pyInsert {α : Type} : List (String × α) → String → α → List (String × α)
  | [], k, v => [(k, v)]
  | p :: rest, k, v =>
    if p.1 = k then (k, v) :: rest else p :: pyInsert rest k v

/-- Python dict lookup returning `none` when the key is absent. -/
def pyLookup {α : Type} : List (String × α) → String → Option α
  | [], _ => none
  | p :: rest, k => if p.1 = k then some p.2 else pyLookup rest k

/-- A configured source as the extract loop sees it (main.py lines 117-143).
`name = none` models a source mapping without a name key, so that
`source[...]` raises there; likewise `stype`. `extractResult` is the outcome
of whichever extractor call the type dispatch selects. -/
structure Source where
  name : Option String
  stype : Option String
  extractResult : PyResult (Option Dataset)

/-- The persisted run summary (main.py lines 294-302). -/
structure Summary where
  startTime : Nat
  endTime : Nat
  duration : Int
  recordsProcessed : Nat
  errorsCount : Nat
  errors : List String
  status : String
deriving DecidableEq, Repr

/-- Mutable pipeline state: the ETLPipeline attributes (records_processed,
errors, start_time, end_time), the staging and output directories as
filename-keyed stores, the summaries written so far, and counters for
cleanup invocations and logged warnings. -/
structure PipeState where
  records : Nat
  errors : List String
  startTime : Option Nat
  endTime : Option Nat
  staging : List (String × Dataset)
  output : List (String × Dataset)
  summaries : List Summary
  cleanupCalls : Nat
  warnings : Nat
deriving DecidableEq, Repr

def PipeState.empty : PipeState :=
  ⟨0, [], none, none, [], [], [], 0, 0⟩

/-- A transform-stage query item: its configured path and the outcome of
`execute_query` on it (the SQL transformer is an external collaborator). -/
structure TQuery where
  path : String
  result : PyResult Dataset

/-- Result of `DataValidator.validate` (an external collaborator). -/
structure VResult where
  isValid : Bool
  verrors : List String
deriving DecidableEq, Repr

/-- One of the three stage names accepted on the command line. -/
inductive Stage : Type where
  | extract : Stage
  | transform : Stage
  | load : Stage
deriving DecidableEq, Repr

/-- A whole-run configuration: the declared sources, queries and target
tables plus the behaviour of every external collaborator call. -/
structure PipelineConfig where
  dirsResult : PyResult Unit
  sources : List Source
  queries : List TQuery
  validate : Dataset → PyResult VResult
  loadTable : String → Dataset → PyResult Unit
  targetTables : List String
  excelResult : PyResult Unit
  cleanupResult : PyResult Unit

/-- Python `s.endswith(pat)`, over character lists so that it reduces. -/
def strEndsWith (s pat : String) : Bool := pat.data.isSuffixOf s.data

/-- Python `s.startswith(pat)`, over character lists so that it reduces. -/
def strStartsWith (s pat : String) : Bool := pat.data.isPrefixOf s.data

/-- Fuel-driven core of Python `str.replace(pat, "")`: scan left to right,
deleting each non-overlapping occurrence of `pat`. The fuel equals the
length of the scanned list, which suffices for non-empty patterns. -/
def delAllAux (pat : List Char) : Nat → List Char → List Char
  | 0, s => s
  | _ + 1, [] => []
  | n + 1, c :: rest =>
    if pat.isPrefixOf (c :: rest) then
      delAllAux pat n ((c :: rest).drop pat.length)
    else c :: delAllAux pat n rest

/-- Python `s.replace(pat, "")` for a non-empty pattern. -/
def delAll (pat s : List Char) : List Char := delAllAux pat s.length s

/-- Whether `pat` occurs as a contiguous sublist of `s`. -/
def hasSub (pat : List Char) : List Char → Bool
  | [] => pat.isEmpty
  | c :: rest => pat.isPrefixOf (c :: rest) || hasSub pat rest

/-- main.py line 197: target-table name to transformed-dataset name,
`table_name.replace(fact_, empty).replace(dim_, empty)`. -/
def dataKey (t : String) : String :=
  ⟨delAll "dim_".data (delAll "fact_".data t.data)⟩

/-- Drop the characters from the last dot onward (helper for `stemOf`). -/
def dropFromLastDot (cs : List Char) : List Char :=
  (((cs.reverse.dropWhile (fun c => c ≠ '.')).drop 1)).reverse

/-- Python `Path(p).stem`: the final path component without its last
extension (a leading dot alone does not start an extension). -/
def lastComponent (cs : List Char) : List Char :=
  (cs.reverse.takeWhile (fun c => c ≠ '/')).reverse

def stemOf (s : String) : String :=
  match lastComponent s.data with
  | [] => ""
  | c0 :: rest =>
    if rest.contains '.' then ⟨c0 :: dropFromLastDot rest⟩ else ⟨c0 :: rest⟩

/-- Number of rows an extraction outcome contributes to
`records_processed` (main.py line 136): a null result counts zero. -/
def okRows (r : PyResult (Option Dataset)) : Nat :=
  match r with
  | .ok (some d) => d.len
  | _ => 0

/-- The extract-stage per-item loop (main.py lines 117-143). `lastName`
is the current binding of the Python local `source_name`, which survives
across iterations; the except handler interpolates it into the error
message, and raises UnboundLocalError when it was never bound. The
accumulator is the `extracted_data` dict. -/
def runExtractLoop : List Source → Option String →
    List (String × Option Dataset) → PipeState →
    PyResult (List (String × Option Dataset)) × PipeState
  | [], _, acc, st => (.ok acc, st)
  | s :: rest, lastName, acc, st =>
    match s.name with
    | none =>
      match lastName with
      | none =>
        (.exn "UnboundLocalError: local variable source_name referenced before assignment", st)
      | some n =>
        runExtractLoop rest (some n) acc
          {st with errors := st.errors ++ ["Failed to extract from " ++ n ++ ": name"]}
    | some n =>
      match s.stype with
      | none =>
        runExtractLoop rest (some n) acc
          {st with errors := st.errors ++ ["Failed to extract from " ++ n ++ ": type"]}
      | some t =>
        if t = "postgresql" ∨ t = "mysql" ∨ t = "api" ∨ t = "file" then
          match s.extractResult with
          | .ok d =>
            runExtractLoop rest (some n) (pyInsert acc n d)
              {st with records := st.records + okRows (.ok d)}
          | .exn m =>
            runExtractLoop rest (some n) acc
              {st with errors := st.errors ++ ["Failed to extract from " ++ n ++ ": " ++ m]}
        else
          runExtractLoop rest (some n) acc
            {st with errors := st.errors ++
              ["Failed to extract from " ++ n ++ ": Unsupported source type: " ++ t]}

/-- Embeds `_save_staging_data` (main.py lines 214-223): write one parquet
artifact per non-null dataset, named `<source>_staging.parquet`. -/
def saveStagingData (data : List (String × Option Dataset)) (st : PipeState) :
    PipeState :=
  let step := fun (fs : List (String × Dataset)) (p : String × Option Dataset) =>
    match p.2 with
    | some d => pyInsert fs (p.1 ++ "_staging.parquet") d
    | none => fs
  {st with staging := data.foldl step st.staging}

/-- Embeds `_run_extract_stage` (main.py lines 110-147): the per-source loop,
then staging persistence. -/
def runExtractStage (sources : List Source) (st : PipeState) :
    PyResult Unit × PipeState :=
  match runExtractLoop sources none [] st with
  | (.ok acc, st1) => (.ok (), saveStagingData acc st1)
  | (.exn m, st1) => (.exn m, st1)

/-- Embeds `_load_staging_data` (main.py lines 225-236). Since main.py never
brings pandas into scope, the loop body `pd.read_parquet(...)` raises NameError on the
first matching artifact; with no matching artifact the loop body never
runs and the empty dict is returned. -/
def loadStagingData (st : PipeState) : PyResult (List (String × Dataset)) :=
  if (st.staging.filter (fun p => strEndsWith p.1 "_staging.parquet")).isEmpty then
    .ok []
  else .exn "NameError: name pd is not defined"

/-- The transform-stage per-query loop (main.py lines 160-173): a failing
query appends one error; a succeeding one stores its result under the
query path stem. -/
def runTransformLoop : List TQuery → List (String × Dataset) → PipeState →
    List (String × Dataset) × PipeState
  | [], acc, st => (acc, st)
  | q :: rest, acc, st =>
    match q.result with
    | .ok d => runTransformLoop rest (pyInsert acc (stemOf q.path) d) st
    | .exn m =>
      runTransformLoop rest acc
        {st with errors := st.errors ++ ["Failed to transform " ++ q.path ++ ": " ++ m]}

/-- Embeds `_validate_data` (main.py lines 238-254): per-dataset validation,
appending one error per invalid dataset or validator exception, never
raising and never altering the datasets. -/
def runValidateLoop (validate : Dataset → PyResult VResult) :
    List (String × Dataset) → PipeState → PipeState
  | [], st => st
  | (n, d) :: rest, st =>
    match validate d with
    | .ok v =>
      if v.isValid then runValidateLoop validate rest st
      else
        runValidateLoop validate rest
          {st with errors := st.errors ++
            ["Data validation failed for " ++ n ++ ": " ++ String.intercalate ", " v.verrors]}
    | .exn m =>
      runValidateLoop validate rest
        {st with errors := st.errors ++ ["Data validation error for " ++ n ++ ": " ++ m]}

/-- Embeds `_save_transformed_data` (main.py lines 256-264): every dataset in the
mapping is written, unconditionally, as `<name>_transformed.parquet`. -/
def saveTransformedData (data : List (String × Dataset)) (st : PipeState) :
    PipeState :=
  {st with output :=
    data.foldl (fun fs p => pyInsert fs (p.1 ++ "_transformed.parquet") p.2) st.output}

/-- Embeds `_run_transform_stage` (main.py lines 149-180): reload staging, run
the query loop, validate, persist. -/
def runTransformStage (queries : List TQuery)
    (validate : Dataset → PyResult VResult) (st : PipeState) :
    PyResult Unit × PipeState :=
  match loadStagingData st with
  | .exn m => (.exn m, st)
  | .ok _ =>
    match runTransformLoop queries [] st with
    | (td, st1) => (.ok (), saveTransformedData td (runValidateLoop validate td st1))

/-- Embeds `_load_transformed_data` (main.py lines 266-277): same missing-pandas
NameError as `_load_staging_data` when any artifact matches. -/
def loadTransformedData (st : PipeState) : PyResult (List (String × Dataset)) :=
  if (st.output.filter (fun p => strEndsWith p.1 "_transformed.parquet")).isEmpty then
    .ok []
  else .exn "NameError: name pd is not defined"

/-- The load-stage per-table loop (main.py lines 192-207): resolve the
dataset name, load it when present (a loader exception appends one
error), otherwise log a warning and skip without an error entry. -/
def runLoadLoop (loadTable : String → Dataset → PyResult Unit) :
    List String → List (String × Dataset) → PipeState → PipeState
  | [], _, st => st
  | t :: rest, td, st =>
    match pyLookup td (dataKey t) with
    | some d =>
      match loadTable t d with
      | .ok _ => runLoadLoop loadTable rest td st
      | .exn m =>
        runLoadLoop loadTable rest td
          {st with errors := st.errors ++ ["Failed to load data to " ++ t ++ ": " ++ m]}
    | none => runLoadLoop loadTable rest td {st with warnings := st.warnings + 1}

/-- Embeds `_generate_excel_reports` (main.py lines 279-288): catches any loader
exception, appending one error; never raises. -/
def generateExcelReports (excelResult : PyResult Unit) (st : PipeState) :
    PipeState :=
  match excelResult with
  | .ok _ => st
  | .exn m =>
    {st with errors := st.errors ++ ["Failed to generate Excel reports: " ++ m]}

/-- Embeds `_run_load_stage` (main.py lines 182-212): reload transformed data,
run the per-table loop, then the excel report step. -/
def runLoadStage (loadTable : String → Dataset → PyResult Unit)
    (targetTables : List String) (excelResult : PyResult Unit)
    (st : PipeState) : PyResult Unit × PipeState :=
  match loadTransformedData st with
  | .exn m => (.exn m, st)
  | .ok td => (.ok (), generateExcelReports excelResult (runLoadLoop loadTable targetTables td st))

/-- Embeds `_generate_summary_report` (main.py lines 290-310): computes
`end_time - start_time`, raising TypeError when either attribute is still
None (Python cannot subtract None and datetime); otherwise builds the
summary dict and persists it once. -/
def generateSummaryReport (st : PipeState) : PyResult Unit × PipeState :=
  match st.endTime, st.startTime with
  | some te, some ts =>
    let summary : Summary :=
      ⟨ts, te, (te : Int) - (ts : Int), st.records, st.errors.length, st.errors,
        if st.errors.length = 0 then "SUCCESS" else "FAILED"⟩
    (.ok (), {st with summaries := st.summaries ++ [summary]})
  | _, _ =>
    (.exn "TypeError: unsupported operand types for -: NoneType and datetime.datetime", st)

/-- Embeds `_cleanup` (main.py lines 312-318): always invoked; an exception from
`cleanup_temp_files` is logged as a warning and swallowed. -/
def runCleanup (cleanupResult : PyResult Unit) (st : PipeState) : PipeState :=
  match cleanupResult with
  | .ok _ => {st with cleanupCalls := st.cleanupCalls + 1}
  | .exn _ => {st with cleanupCalls := st.cleanupCalls + 1, warnings := st.warnings + 1}

/-- Sequence two pipeline steps, short-circuiting on a raised exception
while keeping the state mutations made so far. -/
def pseq (r : PyResult Unit × PipeState) (f : PipeState → PyResult Unit × PipeState) :
    PyResult Unit × PipeState :=
  match r with
  | (.ok _, st) => f st
  | (.exn m, st) => (.exn m, st)

/-- Whether `run_pipeline` executes stage `s` for the given argument:
`stage is None or stage == s`. -/
def stageOn (stage : Option Stage) (s : Stage) : Bool :=
  stage = none ∨ stage = some s

/-- The try-block body of `run_pipeline` (main.py lines 87-100):
directory creation, the selected stages in order, then the summary. -/
def runBody (cfg : PipelineConfig) (stage : Option Stage) (st : PipeState) :
    PyResult Unit × PipeState :=
  pseq
    (match cfg.dirsResult with
     | .ok _ => (.ok (), st)
     | .exn m => (.exn m, st))
    (fun st1 =>
      pseq (if stageOn stage .extract then runExtractStage cfg.sources st1 else (.ok (), st1))
        (fun st2 =>
          pseq (if stageOn stage .transform then runTransformStage cfg.queries cfg.validate st2
                else (.ok (), st2))
            (fun st3 =>
              pseq (if stageOn stage .load then
                      runLoadStage cfg.loadTable cfg.targetTables cfg.excelResult st3
                    else (.ok (), st3))
                generateSummaryReport)))

/-- Embeds `run_pipeline` (main.py lines 77-108): record the start time, run the
body, append a raised message to the error list and re-raise, and in the
finally block set the end time and run the cleanup. `t0` and `t1` are the
two `datetime.now()` readings. -/
def runPipeline (cfg : PipelineConfig) (stage : Option Stage) (t0 t1 : Nat)
    (st : PipeState) : PyResult Unit × PipeState :=
  match runBody cfg stage {st with startTime := some t0} with
  | (.ok _, st1) =>
    (.ok (), runCleanup cfg.cleanupResult {st1 with endTime := some t1})
  | (.exn m, st1) =>
    (.exn m,
      runCleanup cfg.cleanupResult
        {st1 with errors := st1.errors ++ [m], endTime := some t1})

/-- A configuration leaf value inside the `database` block: a string or a
non-string scalar. -/
inductive CVal : Type where
  | s (v : String) : CVal
  | i (v : Int) : CVal
deriving DecidableEq, Repr

/-- The process environment: `os.getenv`. -/
def Env : Type := String → Option String

/-- Python `db_config[key][2:-1]`: the placeholder minus its first two and last
characters (config.py line 47; the trailing character is stripped without
checking that it is a closing brace). -/
def envVarName (v : String) : String := ⟨(v.data.drop 2).dropLast⟩

/-- One step of `Config._load_environment_variables` (config.py lines
45-48) for one key: when the key is present, bound to a string starting
with the placeholder opener, rebind it to `os.getenv(name, old)`. -/
def substKey (env : Env) (db : List (String × CVal)) (key : String) :
    List (String × CVal) :=
  match pyLookup db key with
  | some (CVal.s v) =>
    if strStartsWith v "$\x7b" then
      pyInsert db key (CVal.s ((env (envVarName v)).getD v))
    else db
  | _ => db

/-- Embeds `Config._load_environment_variables` (config.py lines 41-48): applied
to the `database` block, for the keys password, user and host only. -/
def loadEnvironmentVariables (env : Env) (db : List (String × CVal)) :
    List (String × CVal) :=
  (["password", "user", "host"]).foldl (substKey env) db

/-- What one `database` leaf becomes under the substitution pass: a string
starting with the placeholder opener is resolved against the environment,
falling back to itself; everything else is untouched. Characterizes the
per-key effect of `substKey` in theorem statements. -/
def substVal (env : Env) : CVal → CVal
  | CVal.s v =>
    if strStartsWith v "$\x7b" then CVal.s ((env (envVarName v)).getD v) else CVal.s v
  | x => x

/-- A source mapping as `DatabaseExtractor.extract_postgresql` and
`extract_mysql` see it, with the outcomes of the engine creation and the
`pd.read_sql` call as behaviour fields. -/
structure DbSource where
  connection : Option String
  name : Option String
  query : Option String
  table : Option String
  engineResult : PyResult Unit
  readSqlResult : PyResult Dataset

/-- Embeds `DatabaseExtractor.extract_postgresql` (database_extractor.py lines
50-76): the whole body sits in a try block whose handler returns None, so
a missing connection or name key, an engine failure or a read_sql failure
all yield None and no exception escapes. -/
def extract_postgresql (s : DbSource) : Option Dataset :=
  match s.connection with
  | none => none
  | some _ =>
    match s.name with
    | none => none
    | some _ =>
      match s.engineResult with
      | .exn _ => none
      | .ok _ =>
        match s.readSqlResult with
        | .exn _ => none
        | .ok d => some d

/-- Embeds `DatabaseExtractor.extract_mysql` (database_extractor.py lines
78-104): identical structure to the PostgreSQL variant. -/
def extract_mysql (s : DbSource) : Option Dataset :=
  match s.connection with
  | none => none
  | some _ =>
    match s.name with
    | none => none
    | some _ =>
      match s.engineResult with
      | .exn _ => none
      | .ok _ =>
        match s.readSqlResult with
        | .exn _ => none
        | .ok d => some d

/-- The single error message the extract loop appends for a source that
carries a name, or none when the source succeeds. Characterizes the loop
of main.py lines 117-143 in theorem statements. -/
def extractItemErr (s : Source) : Option String :=
  match s.name with
  | none => none
  | some n =>
    match s.stype with
    | none => some ("Failed to extract from " ++ n ++ ": type")
    | some t =>
      if t = "postgresql" ∨ t = "mysql" ∨ t = "api" ∨ t = "file" then
        match s.extractResult with
        | .ok _ => none
        | .exn m => some ("Failed to extract from " ++ n ++ ": " ++ m)
      else some ("Failed to extract from " ++ n ++ ": Unsupported source type: " ++ t)

/-- The single error message the transform loop appends for a failing
query, or none (main.py lines 160-173). -/
def transformItemErr (q : TQuery) : Option String :=
  match q.result with
  | .ok _ => none
  | .exn m => some ("Failed to transform " ++ q.path ++ ": " ++ m)

/-- The single error message the load loop appends for a target table, or
none when the load succeeds or the table is skipped (main.py lines
192-207). -/
def loadItemErr (loadTable : String → Dataset → PyResult Unit)
    (td : List (String × Dataset)) (t : String) : Option String :=
  match pyLookup td (dataKey t) with
  | some d =>
    match loadTable t d with
    | .ok _ => none
    | .exn m => some ("Failed to load data to " ++ t ++ ": " ++ m)
  | none => none

/-- The single error message validation appends for one dataset, or none
when it passes (main.py lines 238-254). -/
def validationErrOf (validate : Dataset → PyResult VResult)
    (p : String × Dataset) : Option String :=
  match validate p.2 with
  | .ok v =>
    if v.isValid then none
    else some ("Data validation failed for " ++ p.1 ++ ": " ++ String.intercalate ", " v.verrors)
  | .exn m => some ("Data validation error for " ++ p.1 ++ ": " ++ m)

/-- The `records_processed` contribution of one source in the extract loop:
zero unless the source is read and dispatched successfully. -/
def sourceRows (s : Source) : Nat :=
  match s.name with
  | none => 0
  | some _ =>
    match s.stype with
    | none => 0
    | some t =>
      if t = "postgresql" ∨ t = "mysql" ∨ t = "api" ∨ t = "file" then
        okRows s.extractResult
      else 0

/-- Dict lookup after dict assignment: the assigned key reads back the new
value and every other key is unaffected. -/
lemma pyLookup_pyInsert {α : Type} (k : String) (v : α) :
    ∀ (m : List (String × α)) (kx : String),
      pyLookup (pyInsert m k v) kx = if kx = k then some v else pyLookup m kx := by
  intro m
  induction m with
  | nil =>
    intro kx
    by_cases hx : kx = k
    · subst hx; simp [pyInsert, pyLookup]
    · have hkx : ¬ (k = kx) := fun h => hx h.symm
      simp [pyInsert, pyLookup, hx, hkx]
  | cons p rest ih =>
    intro kx
    by_cases hp : p.1 = k
    · by_cases hx : kx = k
      · subst hx; simp [pyInsert, pyLookup, hp]
      · have hkx : ¬ (k = kx) := fun h => hx h.symm
        have hpx : ¬ (p.1 = kx) := by rw [hp]; exact hkx
        simp [pyInsert, pyLookup, hp, hkx, hpx, hx]
    · by_cases hpx : p.1 = kx
      · have hxk : ¬ (kx = k) := by intro h; exact hp (by rw [hpx, h])
        simp [pyInsert, pyLookup, hp, hpx, hxk]
      · simp [pyInsert, pyLookup, hp, hpx, ih kx]

/-- A pattern that occurs nowhere in the scanned list is never deleted. -/
lemma delAllAux_of_hasSub_eq_false (pat : List Char) :
    ∀ (n : Nat) (s : List Char), hasSub pat s = false → delAllAux pat n s = s := by
  intro n
  induction n with
  | zero => intro s h; rfl
  | succ n ih =>
    intro s h
    cases s with
    | nil => rfl
    | cons c rest =>
      simp [hasSub] at h
      simp [delAllAux, h.1]
      exact ih rest h.2

/-- Python `str.replace(pat, "")` is the identity when the pattern has no
occurrence. -/
lemma delAll_of_hasSub_eq_false (pat s : List Char) (h : hasSub pat s = false) :
    delAll pat s = s :=
  delAllAux_of_hasSub_eq_false pat s.length s h

/-- The extract loop, when every source mapping carries a name key:
it never raises, appends exactly the per-item error of each failing
source, and adds exactly the row count of each successful extraction
(null results counting zero). -/
lemma runExtractLoop_char :
    ∀ (ss : List Source) (ln : Option String) (acc : List (String × Option Dataset))
      (st : PipeState), (∀ s ∈ ss, s.name.isSome) →
      ((runExtractLoop ss ln acc st).1.isOk = true ∧
        (runExtractLoop ss ln acc st).2.errors = st.errors ++ ss.filterMap extractItemErr ∧
        (runExtractLoop ss ln acc st).2.records = st.records + (ss.map sourceRows).sum) := by
  intro ss
  induction ss with
  | nil => intro ln acc st h; simp [runExtractLoop, PyResult.isOk]
  | cons s rest ih =>
    intro ln acc st h
    have hs : s.name.isSome := h s (by simp)
    have hr : ∀ x ∈ rest, x.name.isSome := fun x hx => h x (by simp [hx])
    cases hn : s.name with
    | none => rw [hn] at hs; simp at hs
    | some n =>
      cases ht : s.stype with
      | none =>
        have := ih (some n) acc
          {st with errors := st.errors ++ ["Failed to extract from " ++ n ++ ": type"]} hr
        simp only [runExtractLoop, hn, ht] at this ⊢
        refine ⟨this.1, ?_, ?_⟩
        · rw [this.2.1]
          simp [extractItemErr, hn, ht, List.filterMap_cons]
        · rw [this.2.2]
          simp [sourceRows, hn, ht]
      | some t =>
        by_cases hsupp : t = "postgresql" ∨ t = "mysql" ∨ t = "api" ∨ t = "file"
        · cases he : s.extractResult with
          | ok d =>
            have := ih (some n) (pyInsert acc n d)
              {st with records := st.records + okRows (.ok d)} hr
            simp only [runExtractLoop, hn, ht, he, if_pos hsupp] at this ⊢
            refine ⟨this.1, ?_, ?_⟩
            · rw [this.2.1]
              simp [extractItemErr, hn, ht, he, hsupp, List.filterMap_cons]
            · rw [this.2.2]
              simp [sourceRows, hn, ht, he, hsupp, Nat.add_assoc]
          | exn m =>
            have := ih (some n) acc
              {st with errors := st.errors ++ ["Failed to extract from " ++ n ++ ": " ++ m]} hr
            simp only [runExtractLoop, hn, ht, he, if_pos hsupp] at this ⊢
            refine ⟨this.1, ?_, ?_⟩
            · rw [this.2.1]
              simp [extractItemErr, hn, ht, he, hsupp, List.filterMap_cons]
            · rw [this.2.2]
              simp [sourceRows, okRows, hn, ht, he, hsupp]
        · have := ih (some n) acc
            {st with errors := st.errors ++
              ["Failed to extract from " ++ n ++ ": Unsupported source type: " ++ t]} hr
          simp only [runExtractLoop, hn, ht, if_neg hsupp] at this ⊢
          refine ⟨this.1, ?_, ?_⟩
          · rw [this.2.1]
            simp [extractItemErr, hn, ht, hsupp, List.filterMap_cons]
          · rw [this.2.2]
            simp [sourceRows, hn, ht, hsupp]

/-- The transform loop never raises and appends exactly the per-item
error of each failing query. -/
lemma runTransformLoop_errors :
    ∀ (qs : List TQuery) (acc : List (String × Dataset)) (st : PipeState),
      (runTransformLoop qs acc st).2.errors = st.errors ++ qs.filterMap transformItemErr := by
  intro qs
  induction qs with
  | nil => intro acc st; simp [runTransformLoop]
  | cons q rest ih =>
    intro acc st
    cases hq : q.result with
    | ok d =>
      simp only [runTransformLoop, hq]
      rw [ih]
      simp [transformItemErr, hq, List.filterMap_cons]
    | exn m =>
      simp only [runTransformLoop, hq]
      rw [ih]
      simp [transformItemErr, hq, List.filterMap_cons]

/-- The validation loop appends exactly the per-item error of each
invalid dataset or raising validator call. -/
lemma runValidateLoop_errors (validate : Dataset → PyResult VResult) :
    ∀ (data : List (String × Dataset)) (st : PipeState),
      (runValidateLoop validate data st).errors =
        st.errors ++ data.filterMap (validationErrOf validate) := by
  intro data
  induction data with
  | nil => intro st; simp [runValidateLoop]
  | cons p rest ih =>
    intro st
    cases hv : validate p.2 with
    | ok v =>
      by_cases hvv : v.isValid
      · simp only [runValidateLoop, hv, if_pos hvv]
        rw [ih]
        simp [validationErrOf, hv, hvv, List.filterMap_cons]
      · simp only [runValidateLoop, hv, if_neg hvv]
        rw [ih]
        simp [validationErrOf, hv, hvv, List.filterMap_cons]
    | exn m =>
      simp only [runValidateLoop, hv]
      rw [ih]
      simp [validationErrOf, hv, List.filterMap_cons]

/-- The load loop never raises, appends exactly the per-item error of
each failing table load, and leaves the error list untouched for a
skipped table. -/
lemma runLoadLoop_errors (loadTable : String → Dataset → PyResult Unit) :
    ∀ (ts : List String) (td : List (String × Dataset)) (st : PipeState),
      (runLoadLoop loadTable ts td st).errors =
        st.errors ++ ts.filterMap (loadItemErr loadTable td) := by
  intro ts
  induction ts with
  | nil => intro td st; simp [runLoadLoop]
  | cons t rest ih =>
    intro td st
    cases hl : pyLookup td (dataKey t) with
    | none =>
      simp only [runLoadLoop, hl]
      rw [ih]
      simp [loadItemErr, hl, List.filterMap_cons]
    | some d =>
      cases hres : loadTable t d with
      | ok u =>
        simp only [runLoadLoop, hl, hres]
        rw [ih]
        simp [loadItemErr, hl, hres, List.filterMap_cons]
      | exn m =>
        simp only [runLoadLoop, hl, hres]
        rw [ih]
        simp [loadItemErr, hl, hres, List.filterMap_cons]

/-- A key already present stays present through the transformed-data
persistence fold. -/
lemma pyLookup_isSome_saveFold :
    ∀ (data : List (String × Dataset)) (init : List (String × Dataset)) (k : String),
      (pyLookup init k).isSome = true →
      (pyLookup
          (data.foldl (fun fs p => pyInsert fs (p.1 ++ "_transformed.parquet") p.2) init)
          k).isSome = true := by
  intro data
  induction data with
  | nil => intro init k h; simpa using h
  | cons p rest ih =>
    intro init k h
    simp only [List.foldl_cons]
    apply ih
    rw [pyLookup_pyInsert]
    by_cases hk : k = p.1 ++ "_transformed.parquet"
    · simp [hk]
    · simp [hk]
      simpa using h

/-- Every name in the transformed mapping is readable back from the
output store after the persistence fold, whatever the store held
before. -/
lemma pyLookup_isSome_saveFold_of_mem :
    ∀ (data : List (String × Dataset)) (init : List (String × Dataset)) (n : String),
      n ∈ data.map Prod.fst →
      (pyLookup
          (data.foldl (fun fs p => pyInsert fs (p.1 ++ "_transformed.parquet") p.2) init)
          (n ++ "_transformed.parquet")).isSome = true := by
  intro data
  induction data with
  | nil => intro init n h; simp at h
  | cons p rest ih =>
    intro init n h
    simp only [List.map_cons, List.mem_cons] at h
    simp only [List.foldl_cons]
    rcases h with h | h
    · apply pyLookup_isSome_saveFold
      rw [h, pyLookup_pyInsert]
      simp
    · exact ih _ n h

lemma runExtractLoop_cleanupCalls :
    ∀ (ss : List Source) (ln : Option String) (acc : List (String × Option Dataset))
      (st : PipeState), (runExtractLoop ss ln acc st).2.cleanupCalls = st.cleanupCalls := by
  intro ss
  induction ss with
  | nil => intro ln acc st; rfl
  | cons s rest ih =>
    intro ln acc st
    cases hn : s.name with
    | none =>
      cases ln with
      | none => simp [runExtractLoop, hn]
      | some n => simp only [runExtractLoop, hn]; rw [ih]
    | some n =>
      cases ht : s.stype with
      | none => simp only [runExtractLoop, hn, ht]; rw [ih]
      | some t =>
        by_cases hsupp : t = "postgresql" ∨ t = "mysql" ∨ t = "api" ∨ t = "file"
        · cases he : s.extractResult with
          | ok d => simp only [runExtractLoop, hn, ht, he, if_pos hsupp]; rw [ih]
          | exn m => simp only [runExtractLoop, hn, ht, he, if_pos hsupp]; rw [ih]
        · simp only [runExtractLoop, hn, ht, if_neg hsupp]; rw [ih]

lemma runTransformLoop_cleanupCalls :
    ∀ (qs : List TQuery) (acc : List (String × Dataset)) (st : PipeState),
      (runTransformLoop qs acc st).2.cleanupCalls = st.cleanupCalls := by
  intro qs
  induction qs with
  | nil => intro acc st; rfl
  | cons q rest ih =>
    intro acc st
    cases hq : q.result with
    | ok d => simp only [runTransformLoop, hq]; rw [ih]
    | exn m => simp only [runTransformLoop, hq]; rw [ih]

lemma runValidateLoop_cleanupCalls (validate : Dataset → PyResult VResult) :
    ∀ (data : List (String × Dataset)) (st : PipeState),
      (runValidateLoop validate data st).cleanupCalls = st.cleanupCalls := by
  intro data
  induction data with
  | nil => intro st; rfl
  | cons p rest ih =>
    intro st
    cases hv : validate p.2 with
    | ok v =>
      by_cases hvv : v.isValid
      · simp only [runValidateLoop, hv, if_pos hvv]; rw [ih]
      · simp only [runValidateLoop, hv, if_neg hvv]; rw [ih]
    | exn m => simp only [runValidateLoop, hv]; rw [ih]

lemma runLoadLoop_cleanupCalls (loadTable : String → Dataset → PyResult Unit) :
    ∀ (ts : List String) (td : List (String × Dataset)) (st : PipeState),
      (runLoadLoop loadTable ts td st).cleanupCalls = st.cleanupCalls := by
  intro ts
  induction ts with
  | nil => intro td st; rfl
  | cons t rest ih =>
    intro td st
    cases hl : pyLookup td (dataKey t) with
    | none => simp only [runLoadLoop, hl]; rw [ih]
    | some d =>
      cases hres : loadTable t d with
      | ok u => simp only [runLoadLoop, hl, hres]; rw [ih]
      | exn m => simp only [runLoadLoop, hl, hres]; rw [ih]

lemma runExtractStage_cleanupCalls (ss : List Source) (st : PipeState) :
    (runExtractStage ss st).2.cleanupCalls = st.cleanupCalls := by
  unfold runExtractStage
  have hl := runExtractLoop_cleanupCalls ss none [] st
  cases h : runExtractLoop ss none [] st with
  | mk r st1 =>
    rw [h] at hl
    cases r with
    | ok acc => simpa [saveStagingData] using hl
    | exn m => simpa using hl

lemma runTransformStage_cleanupCalls (qs : List TQuery)
    (validate : Dataset → PyResult VResult) (st : PipeState) :
    (runTransformStage qs validate st).2.cleanupCalls = st.cleanupCalls := by
  unfold runTransformStage
  cases hs : loadStagingData st with
  | exn m => rfl
  | ok sd =>
    have hl := runTransformLoop_cleanupCalls qs [] st
    cases h : runTransformLoop qs [] st with
    | mk td st1 =>
      rw [h] at hl
      have hv := runValidateLoop_cleanupCalls validate td st1
      simp only [saveTransformedData]
      rw [hv, hl]

lemma runLoadStage_cleanupCalls (loadTable : String → Dataset → PyResult Unit)
    (ts : List String) (excelResult : PyResult Unit) (st : PipeState) :
    (runLoadStage loadTable ts excelResult st).2.cleanupCalls = st.cleanupCalls := by
  unfold runLoadStage
  cases hs : loadTransformedData st with
  | exn m => rfl
  | ok td =>
    have hl := runLoadLoop_cleanupCalls loadTable ts td st
    cases he : excelResult with
    | ok u => simpa [generateExcelReports] using hl
    | exn m => simpa [generateExcelReports] using hl

lemma generateSummaryReport_cleanupCalls (st : PipeState) :
    (generateSummaryReport st).2.cleanupCalls = st.cleanupCalls := by
  unfold generateSummaryReport
  cases st.endTime with
  | none => rfl
  | some te =>
    cases st.startTime with
    | none => rfl
    | some ts => rfl

lemma pseq_cleanupCalls (r : PyResult Unit × PipeState)
    (f : PipeState → PyResult Unit × PipeState)
    (hf : ∀ s, (f s).2.cleanupCalls = s.cleanupCalls) :
    (pseq r f).2.cleanupCalls = r.2.cleanupCalls := by
  cases r with
  | mk a st =>
    cases a with
    | ok u => simpa [pseq] using hf st
    | exn m => rfl

lemma runBody_cleanupCalls (cfg : PipelineConfig) (stage : Option Stage)
    (st : PipeState) : (runBody cfg stage st).2.cleanupCalls = st.cleanupCalls := by
  have h4 : ∀ s : PipeState,
      ((if stageOn stage .load then
          runLoadStage cfg.loadTable cfg.targetTables cfg.excelResult s
        else (.ok (), s)) : PyResult Unit × PipeState).2.cleanupCalls = s.cleanupCalls := by
    intro s
    by_cases hb : stageOn stage .load
    · simp [hb, runLoadStage_cleanupCalls]
    · simp [hb]
  have h3 : ∀ s : PipeState,
      ((if stageOn stage .transform then runTransformStage cfg.queries cfg.validate s
        else (.ok (), s)) : PyResult Unit × PipeState).2.cleanupCalls = s.cleanupCalls := by
    intro s
    by_cases hb : stageOn stage .transform
    · simp [hb, runTransformStage_cleanupCalls]
    · simp [hb]
  have h2 : ∀ s : PipeState,
      ((if stageOn stage .extract then runExtractStage cfg.sources s
        else (.ok (), s)) : PyResult Unit × PipeState).2.cleanupCalls = s.cleanupCalls := by
    intro s
    by_cases hb : stageOn stage .extract
    · simp [hb, runExtractStage_cleanupCalls]
    · simp [hb]
  unfold runBody
  rw [pseq_cleanupCalls]
  · cases cfg.dirsResult with
    | ok u => rfl
    | exn m => rfl
  · intro s
    rw [pseq_cleanupCalls]
    · exact h2 s
    · intro s2
      rw [pseq_cleanupCalls]
      · exact h3 s2
      · intro s3
        rw [pseq_cleanupCalls _ _ generateSummaryReport_cleanupCalls]
        exact h4 s3

lemma runCleanup_cleanupCalls (r : PyResult Unit) (st : PipeState) :
    (runCleanup r st).cleanupCalls = st.cleanupCalls + 1 := by
  cases r <;> rfl

/-- The substitution pass for one key leaves every other key alone. -/
lemma pyLookup_substKey_ne (env : Env) (db : List (String × CVal)) (key kx : String)
    (h : kx ≠ key) : pyLookup (substKey env db key) kx = pyLookup db kx := by
  unfold substKey
  cases hl : pyLookup db key with
  | none => rfl
  | some v =>
    cases v with
    | s sv =>
      by_cases hs : strStartsWith sv "$\x7b"
      · simp [hs, pyLookup_pyInsert, h]
      · simp [hs]
    | i nv => rfl

/-- The substitution pass for one key rewrites exactly the value of that key
through `substVal`. -/
lemma pyLookup_substKey_self (env : Env) (db : List (String × CVal)) (key : String) :
    pyLookup (substKey env db key) key = (pyLookup db key).map (substVal env) := by
  unfold substKey
  cases hl : pyLookup db key with
  | none => simp [hl]
  | some v =>
    cases v with
    | s sv =>
      by_cases hs : strStartsWith sv "$\x7b"
      · simp [hl, hs, pyLookup_pyInsert, substVal]
      · simp [hl, hs, substVal]
    | i nv => simp [hl, substVal]

/-! Concrete inputs used by the claim theorems and witnesses. -/

def dsThree : Dataset := ⟨["id"], [["1"], ["2"], ["3"]]⟩

def dsOne : Dataset := ⟨["id"], [["9"]]⟩

def ds10 : Dataset := ⟨["c"], List.replicate 10 ["x"]⟩

def ds15 : Dataset := ⟨["c"], List.replicate 15 ["y"]⟩

/-- A run with nothing configured and every collaborator succeeding. -/
def cfgTrivial : PipelineConfig :=
  ⟨.ok (), [], [], fun _ => .ok ⟨true, []⟩, fun _ _ => .ok (), [], .ok (), .ok ()⟩

/-- A run whose single file source extracts three rows and nothing else
is configured. -/
def cfgOneGood : PipelineConfig :=
  ⟨.ok (), [⟨some "s1", some "file", .ok (some dsThree)⟩], [],
    fun _ => .ok ⟨true, []⟩, fun _ _ => .ok (), [], .ok (), .ok ()⟩

/-- A source mapping without a name key. -/
def namelessSource : Source := ⟨none, none, .ok none⟩

def cfgNameless : PipelineConfig :=
  ⟨.ok (), [namelessSource], [], fun _ => .ok ⟨true, []⟩, fun _ _ => .ok (), [],
    .ok (), .ok ()⟩

/-- A PostgreSQL source whose `pd.read_sql` call raises. -/
def failingPg : DbSource :=
  ⟨some "postgresql://db/prod", some "orders", some "SELECT * FROM orders", none,
    .ok (), .exn "connection refused"⟩

/-- A MySQL source whose engine creation raises. -/
def failingMy : DbSource :=
  ⟨some "mysql://db/prod", some "events", none, some "events", .exn "bad dsn",
    .ok dsThree⟩

/-- The orchestrator-level source backed by `failingPg`: the extractor
call returns what `extract_postgresql` produces, without raising. -/
def pgSource : Source := ⟨some "orders", some "postgresql", .ok (extract_postgresql failingPg)⟩

def cfgFailedPg : PipelineConfig :=
  ⟨.ok (), [pgSource], [], fun _ => .ok ⟨true, []⟩, fun _ _ => .ok (), [], .ok (), .ok ()⟩

/-- C2 witness inputs: one type-less source, one good source, one failing
query, one failing table load. -/
def c2Sources : List Source :=
  [⟨some "a", none, .ok none⟩, ⟨some "b", some "file", .ok (some dsThree)⟩]

def c2Queries : List TQuery := [⟨"sql/q1.sql", .exn "bad query"⟩]

def c2LoadTable : String → Dataset → PyResult Unit := fun _ _ => .exn "db down"

def c2Td : List (String × Dataset) := [("sales", dsThree)]

/-- C4 witness inputs: sources of 10 and 15 rows plus one whose extractor
returns null. -/
def c4Sources : List Source :=
  [⟨some "s1", some "postgresql", .ok (some ds10)⟩,
   ⟨some "s2", some "mysql", .ok (some ds15)⟩,
   ⟨some "s3", some "postgresql", .ok none⟩]

/-- C7 witness inputs: a validator failing exactly on one-row datasets. -/
def c7Validate : Dataset → PyResult VResult :=
  fun d => if d.rows.length = 1 then .ok ⟨false, ["row count"]⟩ else .ok ⟨true, []⟩

def c7Data : List (String × Dataset) := [("a", dsOne), ("b", dsThree)]

/-- C9 witness inputs. -/
def c9Env : Env :=
  fun n => if n = "DB_NAME" then some "prod_db"
    else if n = "DB_USER" then some "alice" else none

def c9Db : List (String × CVal) :=
  [("dbname", .s "$\x7bDB_NAME\x7d"), ("user", .s "$\x7bDB_USER\x7d"),
   ("password", .s "$\x7bDB_PASS\x7d")]

/-- C1 The code never persists the run summary: even a run with nothing
configured and every collaborator succeeding raises TypeError inside
summary generation, because end_time is still None there (it is set only
in the finally block after the summary call), so no summary is written
and the error list is not empty although no stage failed. This refutes
the claim that the summary is produced and persisted exactly once with
status derived from the error list. -/
theorem etl_C1_code_eval :
    (runPipeline cfgTrivial none 0 5 PipeState.empty).1 =
      .exn "TypeError: unsupported operand types for -: NoneType and datetime.datetime" ∧
    (runPipeline cfgTrivial none 0 5 PipeState.empty).2.summaries = [] ∧
    (runPipeline cfgTrivial none 0 5 PipeState.empty).2.errors =
      ["TypeError: unsupported operand types for -: NoneType and datetime.datetime"] := by
  decide

/-- C2 counterexample: a single source mapping without a name key makes
the except handler itself raise UnboundLocalError, so the extract stage
raises, appends no message, and the whole run raises because of that one
item, refuting per-item isolation as universally stated. -/
theorem etl_C2_counterexample :
    (runExtractStage [namelessSource] PipeState.empty).1 =
      .exn "UnboundLocalError: local variable source_name referenced before assignment" ∧
    (runExtractStage [namelessSource] PipeState.empty).2.errors = [] ∧
    (runPipeline cfgNameless none 0 5 PipeState.empty).1 =
      .exn "UnboundLocalError: local variable source_name referenced before assignment" := by
  decide

/-- C2 amended: provided every source mapping carries a name key, an
exception raised while processing one item of the extract loop is caught
and appended as exactly one message and the loop continues; the
transform and load loops behave that way unconditionally. -/
theorem etl_C2_amended (sources : List Source) (queries : List TQuery)
    (loadTable : String → Dataset → PyResult Unit) (tables : List String)
    (td : List (String × Dataset)) (st st2 st3 : PipeState)
    (h : ∀ s ∈ sources, s.name.isSome) :
    (runExtractStage sources st).1 = .ok () ∧
    (runExtractStage sources st).2.errors = st.errors ++ sources.filterMap extractItemErr ∧
    (runTransformLoop queries [] st2).2.errors =
      st2.errors ++ queries.filterMap transformItemErr ∧
    (runLoadLoop loadTable tables td st3).errors =
      st3.errors ++ tables.filterMap (loadItemErr loadTable td) := by
  have hc := runExtractLoop_char sources none [] st h
  refine ⟨?_, ?_, runTransformLoop_errors queries [] st2,
    runLoadLoop_errors loadTable tables td st3⟩
  · unfold runExtractStage
    cases hr : runExtractLoop sources none [] st with
    | mk r st1 =>
      rw [hr] at hc
      cases r with
      | ok acc => rfl
      | exn m => simp [PyResult.isOk] at hc
  · unfold runExtractStage
    cases hr : runExtractLoop sources none [] st with
    | mk r st1 =>
      rw [hr] at hc
      cases r with
      | ok acc => simpa [saveStagingData] using hc.2.1
      | exn m => simp [PyResult.isOk] at hc

/-- C2 witness: the amended statement at concrete inputs with one failing
item in each loop. -/
theorem etl_C2_amended_witness :
    (∀ s ∈ c2Sources, s.name.isSome) ∧
    ((runExtractStage c2Sources PipeState.empty).1 = .ok () ∧
      (runExtractStage c2Sources PipeState.empty).2.errors =
        PipeState.empty.errors ++ c2Sources.filterMap extractItemErr ∧
      (runTransformLoop c2Queries [] PipeState.empty).2.errors =
        PipeState.empty.errors ++ c2Queries.filterMap transformItemErr ∧
      (runLoadLoop c2LoadTable ["fact_sales"] c2Td PipeState.empty).errors =
        PipeState.empty.errors ++ ["fact_sales"].filterMap (loadItemErr c2LoadTable c2Td)) :=
  ⟨by decide,
    etl_C2_amended c2Sources c2Queries c2LoadTable ["fact_sales"] c2Td
      PipeState.empty PipeState.empty PipeState.empty (by decide)⟩

/-- C3 A run with a single successful extraction and no item-level
failure still does not complete normally with SUCCESS: the transform
stage reloads staging with `pd.read_parquet` although pandas is never
brought into scope in main.py, so the run raises NameError, its only error entry is that
stage-fatal NameError, and no summary is written. -/
theorem etl_C3_code_eval :
    (runPipeline cfgOneGood none 0 5 PipeState.empty).1 =
      .exn "NameError: name pd is not defined" ∧
    (runPipeline cfgOneGood none 0 5 PipeState.empty).2.errors =
      ["NameError: name pd is not defined"] ∧
    (runPipeline cfgOneGood none 0 5 PipeState.empty).2.summaries = [] ∧
    (runPipeline cfgOneGood none 0 5 PipeState.empty).2.records = 3 := by
  decide

/-- C4 With every source mapping carrying a name key, the extract stage
adds to records_processed exactly the sum of the per-source row
contributions, null results counting zero, and the errors it appends are
exactly the per-item errors, in which a null result alone contributes
none. -/
theorem etl_C4_records (sources : List Source) (st : PipeState)
    (h : ∀ s ∈ sources, s.name.isSome) :
    (runExtractStage sources st).2.records = st.records + (sources.map sourceRows).sum ∧
    (runExtractStage sources st).2.errors = st.errors ++ sources.filterMap extractItemErr := by
  have hc := runExtractLoop_char sources none [] st h
  unfold runExtractStage
  cases hr : runExtractLoop sources none [] st with
  | mk r st1 =>
    rw [hr] at hc
    cases r with
    | ok acc => exact ⟨by simpa [saveStagingData] using hc.2.2, by simpa [saveStagingData] using hc.2.1⟩
    | exn m => simp [PyResult.isOk] at hc

/-- C4 witness: the 10-row and 15-row sources plus one null extraction
give records_processed 25 and no error at all. -/
theorem etl_C4_records_witness :
    (∀ s ∈ c4Sources, s.name.isSome) ∧
    ((runExtractStage c4Sources PipeState.empty).2.records =
        PipeState.empty.records + (c4Sources.map sourceRows).sum ∧
      (runExtractStage c4Sources PipeState.empty).2.errors =
        PipeState.empty.errors ++ c4Sources.filterMap extractItemErr) ∧
    (c4Sources.map sourceRows).sum = 25 ∧
    c4Sources.filterMap extractItemErr = [] :=
  ⟨by decide, etl_C4_records c4Sources PipeState.empty (by decide), by decide, by decide⟩

/-- C5 Reading back immediately after save raises instead of returning
the saved mapping: the artifact is on disk under the derived name, but
load_all fails with NameError (main.py uses `pd.read_parquet` but never
binds pd) for the staging store and output store alike. -/
theorem etl_C5_code_eval :
    (saveStagingData [("orders", some dsThree)] PipeState.empty).staging =
      [("orders_staging.parquet", dsThree)] ∧
    loadStagingData (saveStagingData [("orders", some dsThree)] PipeState.empty) =
      .exn "NameError: name pd is not defined" ∧
    (saveTransformedData [("sales", dsThree)] PipeState.empty).output =
      [("sales_transformed.parquet", dsThree)] ∧
    loadTransformedData (saveTransformedData [("sales", dsThree)] PipeState.empty) =
      .exn "NameError: name pd is not defined" := by
  decide

/-- C6 counterexample: the table name refact_x carries neither the
fact_ nor the dim_ naming prefix, yet the code maps it to rex, not to
itself, because `str.replace` deletes the substring fact_ anywhere, not
only as a prefix. -/
theorem etl_C6_counterexample :
    dataKey "refact_x" = "rex" ∧
    strStartsWith "refact_x" "fact_" = false ∧
    strStartsWith "refact_x" "dim_" = false ∧
    dataKey "refact_x" ≠ "refact_x" := by
  decide

/-- C6 amended: the dataset name is obtained by deleting every occurrence
of fact_ and then of dim_ anywhere in the table name; fact_sales maps to
sales, dim_customer to customer, a name containing neither substring maps
to itself, and a table whose resolved name has no transformed dataset is
skipped with a warning and no error entry. -/
theorem etl_C6_amended :
    dataKey "fact_sales" = "sales" ∧
    dataKey "dim_customer" = "customer" ∧
    (∀ t : String, hasSub "fact_".data t.data = false →
      hasSub "dim_".data t.data = false → dataKey t = t) ∧
    (∀ (loadTable : String → Dataset → PyResult Unit) (t : String)
      (td : List (String × Dataset)) (st : PipeState),
      pyLookup td (dataKey t) = none →
      runLoadLoop loadTable [t] td st = {st with warnings := st.warnings + 1}) := by
  refine ⟨by decide, by decide, ?_, ?_⟩
  · intro t h1 h2
    unfold dataKey
    rw [delAll_of_hasSub_eq_false _ _ h1, delAll_of_hasSub_eq_false _ _ h2]
  · intro loadTable t td st h
    simp [runLoadLoop, h]

/-- C6 witness: the amended statement applied at a prefix-free name and
at a table with no matching dataset. -/
theorem etl_C6_amended_witness :
    (hasSub "fact_".data "sales".data = false ∧
      hasSub "dim_".data "sales".data = false ∧ dataKey "sales" = "sales") ∧
    (pyLookup ([] : List (String × Dataset)) (dataKey "fact_missing") = none ∧
      runLoadLoop (fun _ _ => PyResult.ok ()) ["fact_missing"] [] PipeState.empty =
        {PipeState.empty with warnings := PipeState.empty.warnings + 1}) :=
  ⟨⟨by decide, by decide, etl_C6_amended.2.2.1 "sales" (by decide) (by decide)⟩,
    ⟨rfl, etl_C6_amended.2.2.2 (fun _ _ => PyResult.ok ()) "fact_missing" [] PipeState.empty rfl⟩⟩

/-- C7 Validation is advisory: the validation loop appends exactly one
error per invalid dataset or raising validator call, and every name of
the transformed mapping is afterwards readable from the output store,
whatever its validation outcome. -/
theorem etl_C7_validation_advisory (validate : Dataset → PyResult VResult)
    (data : List (String × Dataset)) (st : PipeState) (n : String)
    (hn : n ∈ data.map Prod.fst) :
    (runValidateLoop validate data st).errors =
      st.errors ++ data.filterMap (validationErrOf validate) ∧
    (pyLookup (saveTransformedData data (runValidateLoop validate data st)).output
      (n ++ "_transformed.parquet")).isSome = true := by
  refine ⟨runValidateLoop_errors validate data st, ?_⟩
  simp only [saveTransformedData]
  exact pyLookup_isSome_saveFold_of_mem data _ n hn

/-- C7 witness: dataset a fails validation, contributing one error, yet
is persisted to the output store all the same. -/
theorem etl_C7_witness :
    ("a" ∈ c7Data.map Prod.fst) ∧
    ((runValidateLoop c7Validate c7Data PipeState.empty).errors =
        PipeState.empty.errors ++ c7Data.filterMap (validationErrOf c7Validate) ∧
      (pyLookup
          (saveTransformedData c7Data (runValidateLoop c7Validate c7Data PipeState.empty)).output
          ("a" ++ "_transformed.parquet")).isSome = true) ∧
    c7Data.filterMap (validationErrOf c7Validate) =
      ["Data validation failed for a: row count"] :=
  ⟨by decide, etl_C7_validation_advisory c7Validate c7Data PipeState.empty "a" (by decide),
    by decide⟩

/-- C8 Cleanup runs exactly once per run, whether the body returned or
raised, and the outcome of the run does not depend on the cleanup
outcome: a cleanup exception is swallowed, never propagated. -/
theorem etl_C8_cleanup (cfg : PipelineConfig) (stage : Option Stage) (t0 t1 : Nat)
    (st : PipeState) (r : PyResult Unit) :
    (runPipeline cfg stage t0 t1 st).2.cleanupCalls = st.cleanupCalls + 1 ∧
    (runPipeline {cfg with cleanupResult := r} stage t0 t1 st).1 =
      (runPipeline cfg stage t0 t1 st).1 := by
  constructor
  · unfold runPipeline
    have hb := runBody_cleanupCalls cfg stage {st with startTime := some t0}
    cases h : runBody cfg stage {st with startTime := some t0} with
    | mk res st1 =>
      rw [h] at hb
      simp only at hb
      cases res with
      | ok u => simp [runCleanup_cleanupCalls, hb]
      | exn m => simp [runCleanup_cleanupCalls, hb]
  · have hbody : runBody {cfg with cleanupResult := r} stage {st with startTime := some t0} =
        runBody cfg stage {st with startTime := some t0} := by
      cases cfg; rfl
    unfold runPipeline
    rw [hbody]
    cases h : runBody cfg stage {st with startTime := some t0} with
    | mk res st1 => cases res <;> rfl

/-- C9 counterexample: a placeholder-valued leaf under the key dbname in
the database block is left unchanged although the named environment
variable is set, refuting substitution for every placeholder leaf. -/
theorem etl_C9_counterexample :
    c9Env "DB_NAME" = some "prod_db" ∧
    pyLookup (loadEnvironmentVariables c9Env c9Db) "dbname" =
      some (CVal.s "$\x7bDB_NAME\x7d") ∧
    ("$\x7bDB_NAME\x7d" : String) ≠ "prod_db" := by
  refine ⟨rfl, by decide, by decide⟩

/-- C9 amended: only the keys password, user and host of the database
block are substituted; each such string value starting with the
placeholder opener is replaced by the environment value of its inner name
when set and passes through unchanged when unset, and every other key is
untouched. -/
theorem etl_C9_amended (env : Env) (db : List (String × CVal)) (k : String) :
    (k ≠ "password" → k ≠ "user" → k ≠ "host" →
      pyLookup (loadEnvironmentVariables env db) k = pyLookup db k) ∧
    ((k = "password" ∨ k = "user" ∨ k = "host") →
      pyLookup (loadEnvironmentVariables env db) k = (pyLookup db k).map (substVal env)) := by
  have hunfold : loadEnvironmentVariables env db =
      substKey env (substKey env (substKey env db "password") "user") "host" := rfl
  constructor
  · intro h1 h2 h3
    rw [hunfold, pyLookup_substKey_ne _ _ _ _ h3, pyLookup_substKey_ne _ _ _ _ h2,
      pyLookup_substKey_ne _ _ _ _ h1]
  · intro hk
    rcases hk with hk | hk | hk <;> subst hk
    · rw [hunfold, pyLookup_substKey_ne _ _ _ _ (by decide),
        pyLookup_substKey_ne _ _ _ _ (by decide), pyLookup_substKey_self]
    · rw [hunfold, pyLookup_substKey_ne _ _ _ _ (by decide), pyLookup_substKey_self,
        pyLookup_substKey_ne _ _ _ _ (by decide)]
    · rw [hunfold, pyLookup_substKey_self, pyLookup_substKey_ne _ _ _ _ (by decide),
        pyLookup_substKey_ne _ _ _ _ (by decide)]

/-- C9 witness: the amended statement at a concrete environment and
database block, for the untouched key dbname and the substituted key
user. -/
theorem etl_C9_amended_witness :
    (pyLookup (loadEnvironmentVariables c9Env c9Db) "dbname" = pyLookup c9Db "dbname") ∧
    (pyLookup (loadEnvironmentVariables c9Env c9Db) "user" =
      (pyLookup c9Db "user").map (substVal c9Env)) :=
  ⟨(etl_C9_amended c9Env c9Db "dbname").1 (by decide) (by decide) (by decide),
    (etl_C9_amended c9Env c9Db "user").2 (Or.inr (Or.inl rfl))⟩

/-- C10 The database extractor swallows its failures: a failing
PostgreSQL or MySQL extraction returns null without raising, the
orchestrator appends no extract error, but the run still cannot finish
with status SUCCESS because summary generation raises TypeError
(end_time still None) before any summary is written. -/
theorem etl_C10_code_eval :
    extract_postgresql failingPg = none ∧
    extract_mysql failingMy = none ∧
    (runExtractStage [pgSource] PipeState.empty).2.errors = [] ∧
    (runPipeline cfgFailedPg none 0 7 PipeState.empty).2.errors =
      ["TypeError: unsupported operand types for -: NoneType and datetime.datetime"] ∧
    (runPipeline cfgFailedPg none 0 7 PipeState.empty).2.summaries = [] ∧
    (runPipeline cfgFailedPg none 0 7 PipeState.empty).1 =
      .exn "TypeError: unsupported operand types for -: NoneType and datetime.datetime" := by
  decide
